import Mathlib

/-!
Verification of the SMASH area-coverage module
(`DroneController/packages/madara_client/area_coverage/area_coverage_module.cpp`).

Doubles are embedded as rationals; the MADARA knowledge base is embedded as an
explicit `State` record carrying exactly the variables the module reads and
writes, and each registered MADARA function becomes a Lean function on `State`.
-/

namespace SmashAreaCoverage

/-- Geodetic position, as used by the module (`Position(lat, lon)`, field `x`
holding the latitude and field `y` the longitude). -/
structure Position where
  x : ℚ
  y : ℚ
deriving DecidableEq

/-- Axis-aligned rectangular region, two corner positions, as in the module
(`Region(Position topLeft, Position bottomRight)`). -/
structure Region where
  topLeftCorner : Position
  bottomRightCorner : Position
deriving DecidableEq

/-- REACHED_ACCURACY from the module: margin in degrees when checking arrival. -/
def REACHED_ACCURACY : ℚ := 5 / 1000000

/-- ALTITUDE_DIFFERENCE from the module: vertical space in meters between drones. -/
def ALTITUDE_DIFFERENCE : ℚ := 1 / 2

/-- Embedding of `madaraTargetReached`: true when both the latitude difference
and the longitude difference are strictly within REACHED_ACCURACY.
The argument order is the one the registered function receives:
current latitude, target latitude, current longitude, target longitude. -/
def madaraTargetReached (currLat targetLat currLon targetLon : ℚ) : Bool :=
  |currLat - targetLat| < REACHED_ACCURACY && |currLon - targetLon| < REACHED_ACCURACY

/-- Membership of a position in a region (closed rectangle in lat/lon space,
with the top-left corner carrying the smaller coordinates, as in the
simulation setup where the region goes from (0,0) to (10,10)). -/
def inRegion (r : Region) (p : Position) : Prop :=
  r.topLeftCorner.x ≤ p.x ∧ p.x ≤ r.bottomRightCorner.x ∧
  r.topLeftCorner.y ≤ p.y ∧ p.y ≤ r.bottomRightCorner.y

/-- A region is valid (non-degenerate) when it has positive extent on both axes. -/
def validRegion (r : Region) : Prop :=
  r.topLeftCorner.x < r.bottomRightCorner.x ∧ r.topLeftCorner.y < r.bottomRightCorner.y

/-- The equal strip of index `deviceIdx` out of `totalDevices` strips of the grid,
split along the second (y) axis; the helper behind `calculateCellToSearch`. -/
def stripCell (grid : Region) (deviceIdx totalDevices : ℤ) : Region :=
  let stripHeight : ℚ := (grid.bottomRightCorner.y - grid.topLeftCorner.y) / (totalDevices : ℚ)
  ⟨⟨grid.topLeftCorner.x, grid.topLeftCorner.y + (deviceIdx : ℚ) * stripHeight⟩,
   ⟨grid.bottomRightCorner.x, grid.topLeftCorner.y + ((deviceIdx : ℚ) + 1) * stripHeight⟩⟩

/-- Modelled from the spec: the partitioner behind
`AreaCoverage::calculateCellToSearch` / `SnakeAreaCoverage::initialize`
(the class implementation is not among the available sources; only its caller
`madaraInitSearchCell` is). Per the spec it divides the region into
`totalDevices` equal strips along one axis and returns the strip at index
`deviceIdx` (the whole region when the peer count is zero), failing on a
degenerate region (zero width or height). The split axis and strip order
follow the scenario in the spec: region (0,0)-(10,10) with two peers gives
ranks 0 and 1 the cells (0,0)-(10,5) and (0,5)-(10,10). -/
def calculateCellToSearch (deviceIdx : ℤ) (grid : Region) (totalDevices : ℤ) : Option Region :=
  if grid.topLeftCorner.x = grid.bottomRightCorner.x ∨
     grid.topLeftCorner.y = grid.bottomRightCorner.y then
    none
  else if totalDevices ≤ 0 then
    some grid
  else
    some (stripCell grid deviceIdx totalDevices)

/-- Modelled from the spec: number of snake rows (horizontal legs) of
`SnakeAreaCoverage` over a cell, one row every `lineWidth` starting at the
top edge, the bottom edge always included: rows 0 to 10 for a cell of
height 10 with line width 1, hence height divided by width, rounded up,
plus one. -/
def snakeRows (cell : Region) (lineWidth : ℚ) : ℕ :=
  Nat.ceil ((cell.bottomRightCorner.y - cell.topLeftCorner.y) / lineWidth) + 1

/-- Modelled from the spec: the y coordinate of snake row `k`, clamped to the
bottom edge of the cell so the final row lies on the boundary. -/
def snakeRowY (cell : Region) (lineWidth : ℚ) (k : ℕ) : ℚ :=
  min (cell.topLeftCorner.y + (k : ℚ) * lineWidth) cell.bottomRightCorner.y

/-- Modelled from the spec: sweep direction of snake row `k`; the starting
corner is determined by rank parity and consecutive rows alternate. -/
def snakeRowEastbound (rank : ℤ) (k : ℕ) : Bool :=
  decide ((rank + (k : ℤ)) % 2 = 0)

/-- Modelled from the spec: the two leg endpoints of snake row `k`, ordered by
the sweep direction of that row. -/
def snakeRowPoints (cell : Region) (lineWidth : ℚ) (rank : ℤ) (k : ℕ) : List Position :=
  let y := snakeRowY cell lineWidth k
  if snakeRowEastbound rank k then
    [⟨cell.topLeftCorner.x, y⟩, ⟨cell.bottomRightCorner.x, y⟩]
  else
    [⟨cell.bottomRightCorner.x, y⟩, ⟨cell.topLeftCorner.x, y⟩]

/-- Modelled from the spec: the full finite waypoint sequence of the
`SnakeAreaCoverage` generator over a cell; `getNextTargetLocation` yields the
elements in order and `isTargetingFinalWaypoint` becomes true exactly when the
last element has been produced. -/
def snakeWaypoints (cell : Region) (lineWidth : ℚ) (rank : ℤ) : List Position :=
  (List.range (snakeRows cell lineWidth)).flatMap (snakeRowPoints cell lineWidth rank)

/-- Movement commands handed to the movement module. -/
inductive MovementCommand where
  | idle
  | moveToGPS
  | moveToAltitude
deriving DecidableEq

/-- The slice of the MADARA knowledge base the area-coverage module reads and
writes, together with the state of the active coverage algorithm. The drone
snapshot (mobility, busy flag, assigned search area per device id) is the
eventually-consistent replicated state the availability scan reads; the
region fields are the bounds of the search region assigned to this drone. -/
structure State where
  requested : Bool
  cellInitialized : Bool
  targetLat : ℚ
  targetLon : ℚ
  deviceLat : ℚ
  deviceLon : ℚ
  movementTargetLat : ℚ
  movementTargetLon : ℚ
  movementTargetAlt : ℚ
  movementRequested : MovementCommand
  availableAmount : ℤ
  availableMyIdx : ℤ
  totalDevices : ℕ
  selfId : ℕ
  mobile : ℕ → Bool
  busy : ℕ → Bool
  assignedArea : ℕ → ℤ
  regionTopLeftLat : ℚ
  regionTopLeftLon : ℚ
  regionBotRightLat : ℚ
  regionBotRightLon : ℚ
  minAltitude : ℚ
  lineWidth : ℚ
  cellTopLeftLat : ℚ
  cellTopLeftLon : ℚ
  cellBotRightLat : ℚ
  cellBotRightLon : ℚ
  covWaypoints : List Position
  assignedAltitude : ℚ

/-- Availability filter of the scan: a drone is available when it is mobile,
not busy, and assigned to the same search area as the calling drone. -/
def droneAvailable (s : State) (i : ℕ) : Bool :=
  s.mobile i && !s.busy i && decide (s.assignedArea i = s.assignedArea s.selfId)

/-- Embedding of the MADARA function registered as
`area_coverage_updateAvailableDrones`: reset the available amount to zero,
then loop over device ids 0 to totalDevices - 1; for each available drone,
store its id into the my-index variable when it is the caller, and increment
the amount. The my-index variable is only written when the caller itself is
found available, so otherwise it keeps its previous value. -/
def updateAvailableDrones (s : State) : State :=
  let r :=
    (List.range s.totalDevices).foldl
      (fun (p : ℤ × ℤ) i =>
        if droneAvailable s i then
          (p.1 + 1, if i = s.selfId then (i : ℤ) else p.2)
        else p)
      (0, s.availableMyIdx)
  { s with availableAmount := r.1, availableMyIdx := r.2 }

/-- The search region of the area assigned to the caller, as read back from
the knowledge base in `madaraInitSearchCell`. -/
def searchRegionOf (s : State) : Region :=
  ⟨⟨s.regionTopLeftLat, s.regionTopLeftLon⟩, ⟨s.regionBotRightLat, s.regionBotRightLon⟩⟩

/-- Embedding of `madaraInitSearchCell`: run the availability scan, read back
the amount of available drones and the stored index, compute the cell with the
snake coverage algorithm, and on success store the cell corners and the
generator state, returning 1; on failure (no cell) return 0 without storing
anything. -/
def madaraInitSearchCell (s : State) : State × Bool :=
  let s1 := updateAvailableDrones s
  match calculateCellToSearch s1.availableMyIdx (searchRegionOf s1) s1.availableAmount with
  | some myCell =>
      ({ s1 with
          cellTopLeftLat := myCell.topLeftCorner.x,
          cellTopLeftLon := myCell.topLeftCorner.y,
          cellBotRightLat := myCell.bottomRightCorner.x,
          cellBotRightLon := myCell.bottomRightCorner.y,
          covWaypoints := snakeWaypoints myCell s1.lineWidth s1.availableMyIdx }, true)
  | none => (s1, false)

/-- The altitude formula of `madaraCalculateAndMoveToAltitude`:
minimum altitude plus the stored index times ALTITUDE_DIFFERENCE. -/
def assignedAltitudeFor (minAltitude : ℚ) (idx : ℤ) : ℚ :=
  minAltitude + ALTITUDE_DIFFERENCE * (idx : ℚ)

/-- Embedding of `madaraCalculateAndMoveToAltitude`: compute the default
altitude from the minimum altitude and the stored index, store it as the
assigned altitude, and command a move to that altitude. Always returns 1. -/
def madaraCalculateAndMoveToAltitude (s : State) : State :=
  let alt := assignedAltitudeFor s.minAltitude s.availableMyIdx
  { s with
      assignedAltitude := alt,
      movementTargetAlt := alt,
      movementRequested := MovementCommand.moveToAltitude }

/-- The coverage algorithm yielding the next target: the head of the remaining
waypoint queue (the origin when the queue is exhausted, a case the driver
never reaches because it checks for the final waypoint first). -/
def getNextTargetLocation (s : State) : Position × State :=
  match s.covWaypoints with
  | [] => (⟨0, 0⟩, s)
  | p :: rest => (p, { s with covWaypoints := rest })

/-- Embedding of `madaraSetNewTarget`: obtain the next target from the
coverage algorithm, store it as the next target of the search pattern, set it
as the movement target, and request a move-to-GPS command. Always returns 1. -/
def madaraSetNewTarget (s : State) : State :=
  let next := getNextTargetLocation s
  { next.2 with
      targetLat := next.1.x,
      targetLon := next.1.y,
      movementTargetLat := next.1.x,
      movementTargetLon := next.1.y,
      movementRequested := MovementCommand.moveToGPS }

/-- Embedding of the function registered as
`area_coverage_checkNextTargetReached`: whether the drone position is within
REACHED_ACCURACY of the current target. -/
def nextTargetReached (s : State) : Bool :=
  madaraTargetReached s.deviceLat s.targetLat s.deviceLon s.targetLon

/-- Embedding of `madaraReachedFinalTarget`: whether the coverage algorithm is
targeting its final waypoint, which in the modelled snake generator is the
case exactly when the waypoint queue has been exhausted. -/
def madaraReachedFinalTarget (s : State) : Bool :=
  s.covWaypoints.isEmpty

/-- Embedding of the MADARA expression registered as
`area_coverage_doAreaCoverage`, the per-tick driver: when area coverage is
requested, first, if the cell is initialized and either the stored target is
the origin or the current target is reached while the final one is not, set a
new target; second, if the cell is not initialized, initialize it and move to
altitude, marking the cell initialized only when initialization succeeds. -/
def doAreaCoverage (s : State) : State :=
  if s.requested then
    let s1 :=
      if s.cellInitialized then
        if (s.targetLat = 0 ∧ s.targetLon = 0) ∨
           (nextTargetReached s = true ∧ madaraReachedFinalTarget s = false) then
          madaraSetNewTarget s
        else s
      else s
    if s1.cellInitialized then s1
    else
      let r := madaraInitSearchCell s1
      if r.2 then { madaraCalculateAndMoveToAltitude r.1 with cellInitialized := true }
      else r.1
  else s

/-- Embedding of `madaraSetNewCoverage`: run the availability scan, switch the
coverage algorithm to random coverage, and store the cell record; the code
writes the top-left latitude and longitude of the search region into all four
cell coordinates. The random generator itself draws nondeterministically and
is not modelled; no claim depends on its draws. -/
def madaraSetNewCoverage (s : State) : State :=
  let s1 := updateAvailableDrones s
  { s1 with
      cellTopLeftLat := s1.regionTopLeftLat,
      cellTopLeftLon := s1.regionTopLeftLon,
      cellBotRightLat := s1.regionTopLeftLat,
      cellBotRightLon := s1.regionTopLeftLon }

/-- The calling drone is present in the filtered set of available drones. -/
def selfPresent (s : State) : Prop :=
  s.selfId < s.totalDevices ∧ droneAvailable s s.selfId = true

instance selfPresentDecidable (s : State) : Decidable (selfPresent s) :=
  inferInstanceAs (Decidable (s.selfId < s.totalDevices ∧ droneAvailable s s.selfId = true))

/-- Two states carry the same drone snapshot (the inputs of the scan). -/
def sameSnapshot (s t : State) : Prop :=
  s.totalDevices = t.totalDevices ∧ s.selfId = t.selfId ∧
  s.mobile = t.mobile ∧ s.busy = t.busy ∧ s.assignedArea = t.assignedArea

/-- Formalization of the claim that the scan signals a not-currently-available
condition when the caller is absent from the filtered set: any observable
signal would have to be read off the variables the scan writes, so on a fixed
snapshot with the caller absent those outputs would have to be determined by
the snapshot alone rather than echo unrelated earlier state. -/
def resolverSignalsWhenAbsent : Prop :=
  ∀ s t : State, sameSnapshot s t → ¬ selfPresent s →
    (updateAvailableDrones s).availableMyIdx = (updateAvailableDrones t).availableMyIdx

/-- A concrete baseline state: the search request has arrived, nothing is
initialized yet, three drones all mobile and on the same search area, caller
id 2, search region from (0,0) to (10,10). -/
def baseState : State where
  requested := true
  cellInitialized := false
  targetLat := 0
  targetLon := 0
  deviceLat := 0
  deviceLon := 0
  movementTargetLat := 0
  movementTargetLon := 0
  movementTargetAlt := 0
  movementRequested := MovementCommand.idle
  availableAmount := 0
  availableMyIdx := 0
  totalDevices := 3
  selfId := 2
  mobile := fun _ => true
  busy := fun _ => false
  assignedArea := fun _ => 0
  regionTopLeftLat := 0
  regionTopLeftLon := 0
  regionBotRightLat := 10
  regionBotRightLon := 10
  minAltitude := 1
  lineWidth := 1
  cellTopLeftLat := 0
  cellTopLeftLon := 0
  cellBotRightLat := 0
  cellBotRightLon := 0
  covWaypoints := []
  assignedAltitude := 0

/-- Snapshot with a gap in the available set: drone 1 is busy, drones 0 and 2
are available, the caller is drone 2. The filtered set is the id list 0, 2
and the caller sits at position 1 of it. -/
def gapState : State :=
  { baseState with busy := fun i => decide (i = 1) }

/-- Snapshot in which the caller itself (drone 2) is busy, so it is absent
from the filtered set; the previously stored index is 3. -/
def absentStaleState : State :=
  { baseState with busy := fun i => decide (i = 2), availableMyIdx := 3 }

/-- The spec scenario cell for the snake pattern: corners (0,0) and (2,10). -/
def snakeScenarioCell : Region :=
  ⟨⟨0, 0⟩, ⟨2, 10⟩⟩

/-- A state with an initialized cell, a pending waypoint queue and the target
still at the origin. -/
def tickState : State :=
  { baseState with
      cellInitialized := true,
      covWaypoints := [⟨1, 1⟩, ⟨2, 1⟩] }

/-- A state in which the generator legitimately produced the origin as the
current published waypoint and two further waypoints remain. -/
def originTargetState : State :=
  { baseState with
      cellInitialized := true,
      targetLat := 0,
      targetLon := 0,
      movementTargetLat := 0,
      movementTargetLon := 0,
      movementRequested := MovementCommand.moveToGPS,
      covWaypoints := [⟨2, 3⟩, ⟨2, 4⟩] }

/-- A state whose assigned search region is degenerate: both corners share
latitude 0, so the region has zero height and no cell can be computed. -/
def degenerateRegionState : State :=
  { baseState with regionBotRightLat := 0 }

/-- The region of the partition scenario of the spec: (0,0) to (10,10). -/
def scenarioRegion : Region :=
  ⟨⟨0, 0⟩, ⟨10, 10⟩⟩

/-- Unfolding of the arrival test into the two coordinate bounds. -/
theorem madaraTargetReached_true_iff (currLat targetLat currLon targetLon : ℚ) :
    madaraTargetReached currLat targetLat currLon targetLon = true ↔
      |currLat - targetLat| < REACHED_ACCURACY ∧ |currLon - targetLon| < REACHED_ACCURACY := by
  simp [madaraTargetReached]

/-- C4: madaraTargetReached is true exactly when both coordinate differences
are strictly below the tolerance; it holds on identical positions; it fails
whenever one coordinate differs by at least the tolerance; and the tolerance
is five millionths of a degree. -/
theorem targetReached_iff :
    (∀ currLat targetLat currLon targetLon : ℚ,
        madaraTargetReached currLat targetLat currLon targetLon = true ↔
          |currLat - targetLat| < REACHED_ACCURACY ∧
          |currLon - targetLon| < REACHED_ACCURACY) ∧
    (∀ lat lon : ℚ, madaraTargetReached lat lat lon lon = true) ∧
    (∀ currLat targetLat currLon targetLon : ℚ,
        REACHED_ACCURACY ≤ |currLat - targetLat| ∨
        REACHED_ACCURACY ≤ |currLon - targetLon| →
          madaraTargetReached currLat targetLat currLon targetLon = false) ∧
    REACHED_ACCURACY = 5 / 1000000 := by
  refine ⟨madaraTargetReached_true_iff, ?_, ?_, rfl⟩
  · intro lat lon
    rw [madaraTargetReached_true_iff]
    norm_num [REACHED_ACCURACY]
  · intro currLat targetLat currLon targetLon hfar
    rw [Bool.eq_false_iff]
    intro htrue
    rw [madaraTargetReached_true_iff] at htrue
    rcases hfar with hfar | hfar
    · exact absurd htrue.1 (not_lt.mpr hfar)
    · exact absurd htrue.2 (not_lt.mpr hfar)

/-- Witness for C4: at a concrete pair one full degree apart in latitude, the
tolerance bound holds and the arrival test returns false. -/
theorem targetReached_iff_witness :
    (REACHED_ACCURACY ≤ |(1 : ℚ) - 0| ∨ REACHED_ACCURACY ≤ |(0 : ℚ) - 0|) ∧
    madaraTargetReached 1 0 0 0 = false :=
  ⟨Or.inl (by norm_num [REACHED_ACCURACY]),
   targetReached_iff.2.2.1 1 0 0 0 (Or.inl (by norm_num [REACHED_ACCURACY]))⟩

/-- C5: the stored assigned altitude and the commanded movement altitude both
equal the minimum altitude plus the stored index times the altitude step, a
move-to-altitude command is requested, the step is positive, and the formula
is strictly increasing in the index for a fixed minimum altitude. -/
theorem altitude_allocation :
    (∀ s : State,
        (madaraCalculateAndMoveToAltitude s).assignedAltitude =
            assignedAltitudeFor s.minAltitude s.availableMyIdx ∧
        (madaraCalculateAndMoveToAltitude s).movementTargetAlt =
            assignedAltitudeFor s.minAltitude s.availableMyIdx ∧
        (madaraCalculateAndMoveToAltitude s).movementRequested =
            MovementCommand.moveToAltitude) ∧
    (∀ (m : ℚ) (r : ℤ), assignedAltitudeFor m r = m + (r : ℚ) * ALTITUDE_DIFFERENCE) ∧
    0 < ALTITUDE_DIFFERENCE ∧
    (∀ (m : ℚ) (r₁ r₂ : ℤ), r₁ < r₂ →
        assignedAltitudeFor m r₁ < assignedAltitudeFor m r₂) := by
  refine ⟨fun s => ⟨rfl, rfl, rfl⟩, ?_, by norm_num [ALTITUDE_DIFFERENCE], ?_⟩
  · intro m r
    unfold assignedAltitudeFor
    ring
  · intro m r₁ r₂ hr
    have hq : (r₁ : ℚ) < (r₂ : ℚ) := by exact_mod_cast hr
    have hd : (0 : ℚ) < ALTITUDE_DIFFERENCE := by norm_num [ALTITUDE_DIFFERENCE]
    unfold assignedAltitudeFor
    nlinarith

/-- Witness for C5: rank 0 sits strictly below rank 1. -/
theorem altitude_allocation_witness :
    (0 : ℤ) < 1 ∧ assignedAltitudeFor 0 0 < assignedAltitudeFor 0 1 :=
  ⟨by decide, altitude_allocation.2.2.2 0 0 1 (by decide)⟩

/-- C10: after a coverage switch, all four stored cell coordinates are the
top-left latitude and longitude of the search region, so the published cell
record is the single point at the top-left corner of the area. -/
theorem setNewCoverage_stores_degenerate_cell (s : State) :
    (madaraSetNewCoverage s).cellTopLeftLat = s.regionTopLeftLat ∧
    (madaraSetNewCoverage s).cellTopLeftLon = s.regionTopLeftLon ∧
    (madaraSetNewCoverage s).cellBotRightLat = s.regionTopLeftLat ∧
    (madaraSetNewCoverage s).cellBotRightLon = s.regionTopLeftLon :=
  ⟨rfl, rfl, rfl, rfl⟩

/-- C1 failing input: in the snapshot with drones 0, 1, 2 where only drone 1
is busy and the caller is drone 2, the scan counts 2 available drones, but it
stores 2 (the caller id) into the my-index variable, while the zero-based
position of the caller in the id-ascending filtered list is 1. -/
theorem scan_stores_id_not_position :
    (updateAvailableDrones gapState).availableAmount = 2 ∧
    (updateAvailableDrones gapState).availableMyIdx = 2 ∧
    ((List.range gapState.totalDevices).filter
        (droneAvailable gapState)).indexOf gapState.selfId = 1 ∧
    (updateAvailableDrones gapState).availableMyIdx ≠ (1 : ℤ) :=
  ⟨rfl, rfl, rfl, by decide⟩

/-- C6 counterexample: the scan does not signal a not-currently-available
condition when the caller is absent from the filtered set. Its only outputs
are the available-amount and my-index variables, so any signal would have to
be a function of the snapshot; but on the very same snapshot with the caller
busy, the my-index output merely echoes whatever value it held before (3 in
one run, 5 in the other), indistinguishable from an ordinary rank. -/
theorem scan_no_absent_signal : ¬ resolverSignalsWhenAbsent := by
  intro h
  have h35 :=
    h absentStaleState { absentStaleState with availableMyIdx := 5 }
      ⟨rfl, rfl, rfl, rfl, rfl⟩ (by decide)
  exact absurd h35 (by decide)

/-- C6 amended: when the caller is absent from the filtered set, the scan
leaves the stored my-index variable exactly at its previous value (0 when it
was never written); nothing in the state signals the absence. -/
theorem scan_myIdx_stale_when_absent (s : State) (habs : ¬ selfPresent s) :
    (updateAvailableDrones s).availableMyIdx = s.availableMyIdx := by
  have hstep : ∀ (l : List ℕ),
      (∀ i ∈ l, i = s.selfId → droneAvailable s i = false) →
      ∀ a m : ℤ,
        ((l.foldl
          (fun (p : ℤ × ℤ) i =>
            if droneAvailable s i then
              (p.1 + 1, if i = s.selfId then (i : ℤ) else p.2)
            else p)
          (a, m)).2) = m := by
    intro l
    induction l with
    | nil => intro _ a m; rfl
    | cons x xs ih =>
        intro hl a m
        by_cases hx : droneAvailable s x = true
        · have hxself : ¬ x = s.selfId := by
            intro hxs
            rw [hl x (List.mem_cons_self x xs) hxs] at hx
            exact Bool.false_ne_true hx
          simp only [List.foldl_cons, hx, if_true, if_neg hxself]
          exact ih (fun i hi => hl i (List.mem_cons_of_mem x hi)) (a + 1) m
        · simp only [List.foldl_cons, if_neg hx]
          exact ih (fun i hi => hl i (List.mem_cons_of_mem x hi)) a m
  have hforall : ∀ i ∈ List.range s.totalDevices, i = s.selfId →
      droneAvailable s i = false := by
    intro i hi hself
    rcases Bool.eq_false_or_eq_true (droneAvailable s i) with htrue | hfalse
    · exact absurd ⟨hself ▸ List.mem_range.mp hi, hself ▸ htrue⟩ habs
    · exact hfalse
  show ((List.range s.totalDevices).foldl _ (0, s.availableMyIdx)).2 = s.availableMyIdx
  exact hstep (List.range s.totalDevices) hforall 0 s.availableMyIdx

/-- Witness for the amended C6: with the caller busy and the stale index 3,
the scan returns with the index still 3. -/
theorem scan_myIdx_stale_when_absent_witness :
    ¬ selfPresent absentStaleState ∧
    (updateAvailableDrones absentStaleState).availableMyIdx =
      absentStaleState.availableMyIdx :=
  ⟨by decide, scan_myIdx_stale_when_absent absentStaleState (by decide)⟩

/-- Setting a new target never touches the cell-initialized flag. -/
theorem setNewTarget_cellInitialized (s : State) :
    (madaraSetNewTarget s).cellInitialized = s.cellInitialized := by
  cases h : s.covWaypoints <;>
    simp [madaraSetNewTarget, getNextTargetLocation, h]

/-- On a tick with the cell already initialized, the driver reduces to the
guarded target update: it runs madaraSetNewTarget exactly when the stored
target is the origin, or the current target is reached and the final one is
not; otherwise it leaves the state unchanged. -/
theorem doAreaCoverage_cellInit (s : State)
    (hreq : s.requested = true) (hcell : s.cellInitialized = true) :
    doAreaCoverage s =
      if (s.targetLat = 0 ∧ s.targetLon = 0) ∨
         (nextTargetReached s = true ∧ madaraReachedFinalTarget s = false) then
        madaraSetNewTarget s
      else s := by
  by_cases hc : (s.targetLat = 0 ∧ s.targetLon = 0) ∨
      (nextTargetReached s = true ∧ madaraReachedFinalTarget s = false)
  · simp [doAreaCoverage, hreq, hcell, hc, setNewTarget_cellInitialized]
  · simp [doAreaCoverage, hreq, hcell, hc]

/-- On a degenerate search region the cell computation returns no cell, so
madaraInitSearchCell only performs the availability scan and reports 0. -/
theorem initSearchCell_degenerate (s : State)
    (hdeg : s.regionTopLeftLat = s.regionBotRightLat ∨
            s.regionTopLeftLon = s.regionBotRightLon) :
    madaraInitSearchCell s = (updateAvailableDrones s, false) := by
  have hcalc : calculateCellToSearch (updateAvailableDrones s).availableMyIdx
      (searchRegionOf (updateAvailableDrones s))
      (updateAvailableDrones s).availableAmount = none := by
    have hr : searchRegionOf (updateAvailableDrones s) = searchRegionOf s := rfl
    rw [hr]
    unfold calculateCellToSearch
    rw [if_pos]
    exact hdeg
  simp [madaraInitSearchCell, hcalc]

/-- On a tick with the cell not yet initialized and a degenerate search
region, the whole driver step only refreshes the availability variables. -/
theorem doAreaCoverage_degenerate (s : State)
    (hreq : s.requested = true) (hcell : s.cellInitialized = false)
    (hdeg : s.regionTopLeftLat = s.regionBotRightLat ∨
            s.regionTopLeftLon = s.regionBotRightLon) :
    doAreaCoverage s = updateAvailableDrones s := by
  simp [doAreaCoverage, hreq, hcell, initSearchCell_degenerate s hdeg]

/-- C3: on a tick with coverage requested and the cell initialized, the driver
equals the guarded target update: a new waypoint is taken from the generator
and published exactly when the stored target is the origin (the unset
encoding) or the current target is reached and the mission is not finished;
and madaraSetNewTarget publishes the next generator waypoint as both the
pattern target and the movement target, requesting a move-to-GPS command. -/
theorem driver_sets_target_iff (s : State)
    (hreq : s.requested = true) (hcell : s.cellInitialized = true) :
    (doAreaCoverage s =
      if (s.targetLat = 0 ∧ s.targetLon = 0) ∨
         (nextTargetReached s = true ∧ madaraReachedFinalTarget s = false) then
        madaraSetNewTarget s
      else s) ∧
    (madaraSetNewTarget s).targetLat = (getNextTargetLocation s).1.x ∧
    (madaraSetNewTarget s).targetLon = (getNextTargetLocation s).1.y ∧
    (madaraSetNewTarget s).movementTargetLat = (getNextTargetLocation s).1.x ∧
    (madaraSetNewTarget s).movementTargetLon = (getNextTargetLocation s).1.y ∧
    (madaraSetNewTarget s).movementRequested = MovementCommand.moveToGPS :=
  ⟨doAreaCoverage_cellInit s hreq hcell, rfl, rfl, rfl, rfl, rfl⟩

/-- Witness for C3 at a concrete initialized state with two pending
waypoints. -/
theorem driver_sets_target_iff_witness :
    tickState.requested = true ∧ tickState.cellInitialized = true ∧
    ((doAreaCoverage tickState =
      if (tickState.targetLat = 0 ∧ tickState.targetLon = 0) ∨
         (nextTargetReached tickState = true ∧
          madaraReachedFinalTarget tickState = false) then
        madaraSetNewTarget tickState
      else tickState) ∧
    (madaraSetNewTarget tickState).targetLat = (getNextTargetLocation tickState).1.x ∧
    (madaraSetNewTarget tickState).targetLon = (getNextTargetLocation tickState).1.y ∧
    (madaraSetNewTarget tickState).movementTargetLat = (getNextTargetLocation tickState).1.x ∧
    (madaraSetNewTarget tickState).movementTargetLon = (getNextTargetLocation tickState).1.y ∧
    (madaraSetNewTarget tickState).movementRequested = MovementCommand.moveToGPS) :=
  ⟨rfl, rfl, driver_sets_target_iff tickState rfl rfl⟩

/-- C9: whenever the stored target is exactly the origin (with coverage
requested and the cell initialized), the driver unconditionally requests and
publishes a new waypoint; the hypothesis is only about the stored coordinates,
so a legitimately generated waypoint at latitude 0, longitude 0 is treated
exactly like an unset target and is immediately replaced. -/
theorem driver_replaces_origin_target (s : State)
    (hreq : s.requested = true) (hcell : s.cellInitialized = true)
    (hlat : s.targetLat = 0) (hlon : s.targetLon = 0) :
    doAreaCoverage s = madaraSetNewTarget s := by
  rw [doAreaCoverage_cellInit s hreq hcell, if_pos (Or.inl ⟨hlat, hlon⟩)]

/-- Witness for C9 at a concrete state whose published waypoint is the origin
while the generator still holds further waypoints. -/
theorem driver_replaces_origin_target_witness :
    originTargetState.requested = true ∧
    originTargetState.cellInitialized = true ∧
    originTargetState.targetLat = 0 ∧
    originTargetState.targetLon = 0 ∧
    doAreaCoverage originTargetState = madaraSetNewTarget originTargetState :=
  ⟨rfl, rfl, rfl, rfl, driver_replaces_origin_target originTargetState rfl rfl rfl rfl⟩

/-- C7: with coverage requested, the cell uninitialized and a degenerate
search region, cell initialization reports failure, the cell-initialized flag
stays unset after the tick, the request is still pending, and the next tick
attempts initialization again and fails the same way; the driver step is a
total function, so the failure never halts the control loop. -/
theorem init_failure_is_recoverable (s : State)
    (hreq : s.requested = true) (hcell : s.cellInitialized = false)
    (hdeg : s.regionTopLeftLat = s.regionBotRightLat ∨
            s.regionTopLeftLon = s.regionBotRightLon) :
    (madaraInitSearchCell s).2 = false ∧
    (doAreaCoverage s).cellInitialized = false ∧
    (doAreaCoverage s).requested = true ∧
    (madaraInitSearchCell (doAreaCoverage s)).2 = false ∧
    (doAreaCoverage (doAreaCoverage s)).cellInitialized = false := by
  have h1 : doAreaCoverage s = updateAvailableDrones s :=
    doAreaCoverage_degenerate s hreq hcell hdeg
  have hreq1 : (updateAvailableDrones s).requested = s.requested := rfl
  have hcell1 : (updateAvailableDrones s).cellInitialized = s.cellInitialized := rfl
  have hdeg1 : (updateAvailableDrones s).regionTopLeftLat =
      (updateAvailableDrones s).regionBotRightLat ∨
      (updateAvailableDrones s).regionTopLeftLon =
      (updateAvailableDrones s).regionBotRightLon := hdeg
  have h2 : doAreaCoverage (updateAvailableDrones s) =
      updateAvailableDrones (updateAvailableDrones s) :=
    doAreaCoverage_degenerate (updateAvailableDrones s)
      (hreq1.trans hreq) (hcell1.trans hcell) hdeg1
  refine ⟨?_, ?_, ?_, ?_, ?_⟩
  · rw [initSearchCell_degenerate s hdeg]
  · rw [h1]; exact hcell1.trans hcell
  · rw [h1]; exact hreq1.trans hreq
  · rw [h1, initSearchCell_degenerate (updateAvailableDrones s) hdeg1]
  · rw [h1, h2]; exact hcell1.trans (hcell1.trans hcell)

/-- Witness for C7 at the concrete state whose search region has zero
height. -/
theorem init_failure_is_recoverable_witness :
    degenerateRegionState.requested = true ∧
    degenerateRegionState.cellInitialized = false ∧
    (degenerateRegionState.regionTopLeftLat =
       degenerateRegionState.regionBotRightLat ∨
     degenerateRegionState.regionTopLeftLon =
       degenerateRegionState.regionBotRightLon) ∧
    ((madaraInitSearchCell degenerateRegionState).2 = false ∧
     (doAreaCoverage degenerateRegionState).cellInitialized = false ∧
     (doAreaCoverage degenerateRegionState).requested = true ∧
     (madaraInitSearchCell (doAreaCoverage degenerateRegionState)).2 = false ∧
     (doAreaCoverage (doAreaCoverage degenerateRegionState)).cellInitialized = false) :=
  ⟨rfl, rfl, Or.inl rfl,
   init_failure_is_recoverable degenerateRegionState rfl rfl (Or.inl rfl)⟩

/-- Every snake row contributes exactly its two leg endpoints. -/
theorem snakeRowPoints_length (cell : Region) (lineWidth : ℚ) (rank : ℤ) (k : ℕ) :
    (snakeRowPoints cell lineWidth rank k).length = 2 := by
  unfold snakeRowPoints
  by_cases h : snakeRowEastbound rank k = true <;> simp [h]

/-- Flattening rows of two endpoints doubles the row count. -/
theorem flatMap_rowPoints_length (cell : Region) (lineWidth : ℚ) (rank : ℤ) :
    ∀ l : List ℕ,
      (l.flatMap (snakeRowPoints cell lineWidth rank)).length = 2 * l.length := by
  intro l
  induction l with
  | nil => rfl
  | cons x xs ih =>
      simp only [List.flatMap_cons, List.length_append, List.length_cons,
        snakeRowPoints_length, ih]
      ring

/-- The snake generator emits two waypoints per row. -/
theorem snakeWaypoints_length (cell : Region) (lineWidth : ℚ) (rank : ℤ) :
    (snakeWaypoints cell lineWidth rank).length = 2 * snakeRows cell lineWidth := by
  unfold snakeWaypoints
  rw [flatMap_rowPoints_length, List.length_range]

/-- The scenario cell (0,0)-(2,10) with line width 1 has rows 0 through 10. -/
theorem snakeRows_scenario : snakeRows snakeScenarioCell 1 = 11 := by
  unfold snakeRows snakeScenarioCell
  norm_num

/-- C8 counterexample: on the scenario cell the two conjuncts of the claim
cannot both hold; the modelled snake generator emits 22 waypoints there
(2 endpoints for each of the 11 rows), while the claim demands both
ceil(10 / 1) * 2 = 20 and 11 at the same input. -/
theorem snake_count_contradiction :
    ¬ ((snakeWaypoints snakeScenarioCell 1 0).length =
         Nat.ceil ((snakeScenarioCell.bottomRightCorner.y -
           snakeScenarioCell.topLeftCorner.y) / 1) * 2 ∧
       (snakeWaypoints snakeScenarioCell 1 0).length = 11) := by
  intro hc
  have hlen : (snakeWaypoints snakeScenarioCell 1 0).length = 22 := by
    rw [snakeWaypoints_length, snakeRows_scenario]
  rw [hlen] at hc
  exact absurd hc.2 (by norm_num)

/-- C8 amended: the number of waypoints the modelled snake generator emits
before the final waypoint is reported equals twice the number of rows, which
is ceil(cellHeight / lineWidth) plus one (both cell edges carry a row);
consecutive rows alternate sweep direction; and the scenario cell (0,0)-(2,10)
with line width 1 yields exactly 22 waypoints. -/
theorem snake_waypoint_count (cell : Region) (lineWidth : ℚ) (rank : ℤ)
    (_hw : 0 < lineWidth) :
    (snakeWaypoints cell lineWidth rank).length =
      2 * (Nat.ceil ((cell.bottomRightCorner.y - cell.topLeftCorner.y) / lineWidth) + 1) ∧
    (∀ k : ℕ, snakeRowEastbound rank (k + 1) = !snakeRowEastbound rank k) ∧
    (snakeWaypoints snakeScenarioCell 1 0).length = 22 := by
  refine ⟨by rw [snakeWaypoints_length]; rfl, ?_, ?_⟩
  · intro k
    unfold snakeRowEastbound
    rw [← decide_not, decide_eq_decide]
    push_cast
    omega
  · rw [snakeWaypoints_length, snakeRows_scenario]

/-- Witness for the amended C8 at the scenario cell with line width 1. -/
theorem snake_waypoint_count_witness :
    (0 : ℚ) < 1 ∧
    ((snakeWaypoints snakeScenarioCell 1 0).length =
      2 * (Nat.ceil ((snakeScenarioCell.bottomRightCorner.y -
        snakeScenarioCell.topLeftCorner.y) / 1) + 1) ∧
    (∀ k : ℕ, snakeRowEastbound 0 (k + 1) = !snakeRowEastbound 0 k) ∧
    (snakeWaypoints snakeScenarioCell 1 0).length = 22) :=
  ⟨by norm_num, snake_waypoint_count snakeScenarioCell 1 0 (by norm_num)⟩

/-- Splitting an interval of length H into n equal strips: every offset t in
the interval lies in some strip. -/
theorem rat_strip_cover (t H : ℚ) (n : ℕ) (hn : 1 ≤ n) (hH : 0 < H)
    (h0 : 0 ≤ t) (h1 : t ≤ H) :
    ∃ i : ℕ, i < n ∧ (i : ℚ) * (H / n) ≤ t ∧ t ≤ ((i : ℚ) + 1) * (H / n) := by
  have hnq : (0 : ℚ) < n := by exact_mod_cast Nat.lt_of_lt_of_le Nat.zero_lt_one hn
  set h := H / (n : ℚ) with hh
  have hpos : 0 < h := div_pos hH hnq
  have hnh : (n : ℚ) * h = H := by
    rw [hh]
    field_simp
  by_cases hcase : Nat.floor (t / h) < n
  · refine ⟨Nat.floor (t / h), hcase, ?_, ?_⟩
    · have hfl : ((Nat.floor (t / h) : ℕ) : ℚ) ≤ t / h :=
        Nat.floor_le (div_nonneg h0 hpos.le)
      calc ((Nat.floor (t / h) : ℕ) : ℚ) * h ≤ (t / h) * h :=
            mul_le_mul_of_nonneg_right hfl hpos.le
        _ = t := div_mul_cancel₀ t hpos.ne'
    · have hfl : t / h < (Nat.floor (t / h) : ℚ) + 1 := Nat.lt_floor_add_one (t / h)
      calc t = (t / h) * h := (div_mul_cancel₀ t hpos.ne').symm
        _ ≤ ((Nat.floor (t / h) : ℚ) + 1) * h :=
            mul_le_mul_of_nonneg_right hfl.le hpos.le
  · push_neg at hcase
    refine ⟨n - 1, by omega, ?_, ?_⟩
    · have hcast : ((n - 1 : ℕ) : ℚ) = (n : ℚ) - 1 := by
        rw [Nat.cast_sub hn, Nat.cast_one]
      have hle : ((n - 1 : ℕ) : ℚ) * h ≤ (n : ℚ) * h := by
        apply mul_le_mul_of_nonneg_right _ hpos.le
        rw [hcast]
        linarith
      have hnle : (n : ℚ) ≤ t / h := by
        calc (n : ℚ) ≤ (Nat.floor (t / h) : ℚ) := by exact_mod_cast hcase
          _ ≤ t / h := Nat.floor_le (div_nonneg h0 hpos.le)
      have hHt : H ≤ t := by
        have := mul_le_mul_of_nonneg_right hnle hpos.le
        rw [div_mul_cancel₀ t hpos.ne'] at this
        linarith [hnh]
      have ht : t = H := le_antisymm h1 hHt
      rw [ht]
      linarith [hnh]
    · have hcast : ((n - 1 : ℕ) : ℚ) + 1 = (n : ℚ) := by
        rw [Nat.cast_sub hn, Nat.cast_one]
        ring
      rw [hcast, hnh]
      exact h1

/-- For a valid region and a positive device count the partitioner succeeds
and returns the strip of the requested index. -/
theorem calculateCellToSearch_eq_strip (grid : Region) (hv : validRegion grid)
    (i n : ℤ) (hn : 0 < n) :
    calculateCellToSearch i grid n = some (stripCell grid i n) := by
  have h1 : ¬ (grid.topLeftCorner.x = grid.bottomRightCorner.x ∨
      grid.topLeftCorner.y = grid.bottomRightCorner.y) := by
    push_neg
    exact ⟨ne_of_lt hv.1, ne_of_lt hv.2⟩
  unfold calculateCellToSearch
  rw [if_neg h1, if_neg (not_le.mpr hn)]

/-- Two strips at indices a < b can only share points on the lower boundary
line of the higher strip. -/
theorem strip_overlap_boundary (tly h : ℚ) (hpos : 0 < h) (a b : ℕ) (hab : a < b)
    (py : ℚ) (hupper : py ≤ tly + ((a : ℚ) + 1) * h) (hlower : tly + (b : ℚ) * h ≤ py) :
    py = tly + (b : ℚ) * h := by
  have hcast : ((a : ℚ) + 1) ≤ (b : ℚ) := by exact_mod_cast hab
  have := mul_le_mul_of_nonneg_right hcast hpos.le
  linarith

/-- C2: for every valid region and every peer count of at least one, the
strips the modelled partitioner returns for ranks 0 to peerCount - 1 cover the
region exactly — a point is in the region if and only if it is in some
returned cell — and two distinct cells can only share points on their common
horizontal boundary line. -/
theorem partition_covers_and_disjoint (grid : Region) (n : ℕ)
    (hv : validRegion grid) (hn : 1 ≤ n) :
    (∀ p : Position, inRegion grid p ↔
        ∃ i : ℕ, i < n ∧ ∃ c : Region,
          calculateCellToSearch (i : ℤ) grid (n : ℤ) = some c ∧ inRegion c p) ∧
    (∀ i j : ℕ, i < n → j < n → i ≠ j →
        ∀ ci cj : Region,
          calculateCellToSearch (i : ℤ) grid (n : ℤ) = some ci →
          calculateCellToSearch (j : ℤ) grid (n : ℤ) = some cj →
          ∀ p : Position, inRegion ci p → inRegion cj p →
            p.y = grid.topLeftCorner.y + ((max i j : ℕ) : ℚ) *
              ((grid.bottomRightCorner.y - grid.topLeftCorner.y) / (n : ℚ))) := by
  have hnZ : (0 : ℤ) < (n : ℤ) := by exact_mod_cast Nat.lt_of_lt_of_le Nat.zero_lt_one hn
  have hnq : (0 : ℚ) < (n : ℚ) := by exact_mod_cast Nat.lt_of_lt_of_le Nat.zero_lt_one hn
  have hH : (0 : ℚ) < grid.bottomRightCorner.y - grid.topLeftCorner.y := by
    have := hv.2
    linarith
  have hposh : (0 : ℚ) < (grid.bottomRightCorner.y - grid.topLeftCorner.y) / (n : ℚ) :=
    div_pos hH hnq
  have hnh : (n : ℚ) * ((grid.bottomRightCorner.y - grid.topLeftCorner.y) / (n : ℚ)) =
      grid.bottomRightCorner.y - grid.topLeftCorner.y := by
    field_simp
  constructor
  · intro p
    constructor
    · rintro ⟨hx1, hx2, hy1, hy2⟩
      obtain ⟨i, hi, hlo, hhi⟩ :=
        rat_strip_cover (p.y - grid.topLeftCorner.y)
          (grid.bottomRightCorner.y - grid.topLeftCorner.y) n hn hH
          (by linarith) (by linarith)
      refine ⟨i, hi, stripCell grid (i : ℤ) (n : ℤ),
        calculateCellToSearch_eq_strip grid hv (i : ℤ) (n : ℤ) hnZ, ?_⟩
      simp only [stripCell, inRegion]
      push_cast
      refine ⟨hx1, hx2, by linarith, by linarith⟩
    · rintro ⟨i, hi, c, hc, hpc⟩
      rw [calculateCellToSearch_eq_strip grid hv (i : ℤ) (n : ℤ) hnZ,
        Option.some_inj] at hc
      subst hc
      simp only [stripCell, inRegion] at hpc
      push_cast at hpc
      obtain ⟨hx1, hx2, hy1, hy2⟩ := hpc
      have hi1 : ((i : ℚ) + 1) ≤ (n : ℚ) := by exact_mod_cast hi
      have hupper : ((i : ℚ) + 1) *
          ((grid.bottomRightCorner.y - grid.topLeftCorner.y) / (n : ℚ)) ≤
          (n : ℚ) * ((grid.bottomRightCorner.y - grid.topLeftCorner.y) / (n : ℚ)) :=
        mul_le_mul_of_nonneg_right hi1 hposh.le
      have hlow : (0 : ℚ) ≤ (i : ℚ) *
          ((grid.bottomRightCorner.y - grid.topLeftCorner.y) / (n : ℚ)) :=
        mul_nonneg (by positivity) hposh.le
      refine ⟨hx1, hx2, by linarith, by linarith [hnh]⟩
  · intro i j hi hj hij ci cj hci hcj p hpi hpj
    rw [calculateCellToSearch_eq_strip grid hv (i : ℤ) (n : ℤ) hnZ,
      Option.some_inj] at hci
    rw [calculateCellToSearch_eq_strip grid hv (j : ℤ) (n : ℤ) hnZ,
      Option.some_inj] at hcj
    subst hci
    subst hcj
    simp only [stripCell, inRegion] at hpi hpj
    push_cast at hpi hpj
    rcases lt_or_gt_of_ne hij with hlt | hgt
    · rw [max_eq_right hlt.le]
      exact strip_overlap_boundary grid.topLeftCorner.y _ hposh i j hlt p.y
        hpi.2.2.2 hpj.2.2.1
    · rw [max_eq_left hgt.le]
      exact strip_overlap_boundary grid.topLeftCorner.y _ hposh j i hgt p.y
        hpj.2.2.2 hpi.2.2.1

/-- Witness for C2 at the scenario region (0,0)-(10,10) with two peers. -/
theorem partition_covers_and_disjoint_witness :
    validRegion scenarioRegion ∧ 1 ≤ 2 ∧
    ((∀ p : Position, inRegion scenarioRegion p ↔
        ∃ i : ℕ, i < 2 ∧ ∃ c : Region,
          calculateCellToSearch (i : ℤ) scenarioRegion (2 : ℤ) = some c ∧ inRegion c p) ∧
    (∀ i j : ℕ, i < 2 → j < 2 → i ≠ j →
        ∀ ci cj : Region,
          calculateCellToSearch (i : ℤ) scenarioRegion (2 : ℤ) = some ci →
          calculateCellToSearch (j : ℤ) scenarioRegion (2 : ℤ) = some cj →
          ∀ p : Position, inRegion ci p → inRegion cj p →
            p.y = scenarioRegion.topLeftCorner.y + ((max i j : ℕ) : ℚ) *
              ((scenarioRegion.bottomRightCorner.y - scenarioRegion.topLeftCorner.y) /
                (2 : ℚ)))) :=
  ⟨⟨by norm_num [scenarioRegion, validRegion], by norm_num [scenarioRegion, validRegion]⟩,
   by norm_num,
   partition_covers_and_disjoint scenarioRegion 2
     ⟨by norm_num [scenarioRegion, validRegion], by norm_num [scenarioRegion, validRegion]⟩
     (by norm_num)⟩

end SmashAreaCoverage
